import Mathlib

/-!
Verification of `pyutools` (delallea/pyutools): a shallow embedding of
`pyutools/io/fileutils.py` (`can_read_file`, `copy_link`, `is_same_file`,
`md5`) and `pyutools/misc/util.py` (`verbosity_to_log_level`), together
with theorems settling the specified properties of these functions.

File contents are modelled as lists of bytes (`List Nat`, each < 256).
The external `hashlib.md5` object is modelled by its documented contract:
its state is the sequence of bytes fed so far (`update` concatenates), and
`hexdigest` renders the MD5 digest of the accumulated byte sequence as a
lowercase hexadecimal string.  MD5 itself (RFC 1321) is implemented
executably below so that `hexdigest` is a concrete function.
-/

namespace Pyutools

/-! ## MD5 (RFC 1321), executable, over byte lists -/

/-- 2^32, the word modulus of MD5. -/
def M32 : Nat := 4294967296

/-- Bitwise complement on a 32-bit word (valid for `x < 2^32`). -/
def not32 (x : Nat) : Nat := 4294967295 - x

/-- Left-rotation of a 32-bit word by `s` places. -/
def rotl32 (x s : Nat) : Nat := ((x <<< s) % M32) ||| (x >>> (32 - s))

/-- The 64 MD5 sine-derived round constants `K[i] = floor(2^32 * |sin(i+1)|)`. -/
def md5K : List Nat :=
  [3614090360, 3905402710, 606105819, 3250441966, 4118548399, 1200080426,
   2821735955, 4249261313, 1770035416, 2336552879, 4294925233, 2304563134,
   1804603682, 4254626195, 2792965006, 1236535329, 4129170786, 3225465664,
   643717713, 3921069994, 3593408605, 38016083, 3634488961, 3889429448,
   568446438, 3275163606, 4107603335, 1163531501, 2850285829, 4243563512,
   1735328473, 2368359562, 4294588738, 2272392833, 1839030562, 4259657740,
   2763975236, 1272893353, 4139469664, 3200236656, 681279174, 3936430074,
   3572445317, 76029189, 3654602809, 3873151461, 530742520, 3299628645,
   4096336452, 1126891415, 2878612391, 4237533241, 1700485571, 2399980690,
   4293915773, 2240044497, 1873313359, 4264355552, 2734768916, 1309151649,
   4149444226, 3174756917, 718787259, 3951481745]

/-- The 64 MD5 per-round left-rotation amounts. -/
def md5S : List Nat :=
  [7, 12, 17, 22, 7, 12, 17, 22, 7, 12, 17, 22, 7, 12, 17, 22,
   5, 9, 14, 20, 5, 9, 14, 20, 5, 9, 14, 20, 5, 9, 14, 20,
   4, 11, 16, 23, 4, 11, 16, 23, 4, 11, 16, 23, 4, 11, 16, 23,
   6, 10, 15, 21, 6, 10, 15, 21, 6, 10, 15, 21, 6, 10, 15, 21]

/-- The four-word MD5 chaining state. -/
structure MD5State where
  a : Nat
  b : Nat
  c : Nat
  d : Nat
deriving Repr, DecidableEq

/-- The MD5 initial chaining value. -/
def md5Init : MD5State := ⟨1732584193, 4023233417, 2562383102, 271733878⟩

/-- One of the 64 MD5 rounds: `msg` is the 16-word message block, `i` the
round index. -/
def md5Step (msg : List Nat) (st : MD5State) (i : Nat) : MD5State :=
  let fg : Nat × Nat :=
    if i < 16 then (((st.b &&& st.c) ||| (not32 st.b &&& st.d)), i)
    else if i < 32 then (((st.d &&& st.b) ||| (not32 st.d &&& st.c)), (5 * i + 1) % 16)
    else if i < 48 then ((st.b ^^^ st.c ^^^ st.d), (3 * i + 5) % 16)
    else ((st.c ^^^ (st.b ||| not32 st.d)), (7 * i) % 16)
  let tmp : Nat := (st.a + fg.1 + md5K.getD i 0 + msg.getD fg.2 0) % M32
  let nb : Nat := (st.b + rotl32 tmp (md5S.getD i 0)) % M32
  ⟨st.d, nb, st.b, st.c⟩

/-- Decode a 64-byte block into 16 little-endian 32-bit words. -/
def wordsOfBlock (block : List Nat) : List Nat :=
  (List.range 16).map fun j =>
    block.getD (4 * j) 0 + 256 * block.getD (4 * j + 1) 0 +
      65536 * block.getD (4 * j + 2) 0 + 16777216 * block.getD (4 * j + 3) 0

/-- Compress one 64-byte block into the chaining state. -/
def md5Block (st : MD5State) (block : List Nat) : MD5State :=
  let msg := wordsOfBlock block
  let r := (List.range 64).foldl (md5Step msg) st
  ⟨(st.a + r.a) % M32, (st.b + r.b) % M32, (st.c + r.c) % M32, (st.d + r.d) % M32⟩

/-- The 8-byte little-endian encoding of the bit length of a `len`-byte
message. -/
def md5LengthBytes (len : Nat) : List Nat :=
  (List.range 8).map fun i => ((8 * len) >>> (8 * i)) % 256

/-- MD5 padding: append `0x80`, zero bytes up to 56 mod 64, then the 8-byte
bit length.  The result's length is a multiple of 64. -/
def md5Pad (msg : List Nat) : List Nat :=
  msg ++ 128 :: (List.replicate ((119 - msg.length % 64) % 64) 0 ++ md5LengthBytes msg.length)

/-- Split a list into consecutive chunks of `n` elements (the last chunk may
be shorter); `fuel` bounds the recursion and is sufficient whenever
`fuel ≥ l.length` and `n > 0`. -/
def chunksOfF {α : Type} : Nat → Nat → List α → List (List α)
  | 0, _, _ => []
  | _ + 1, _, [] => []
  | fuel + 1, n, x :: xs => (x :: xs).take n :: chunksOfF fuel n ((x :: xs).drop n)

/-- The little-endian byte rendering of a 32-bit word. -/
def wordBytes (w : Nat) : List Nat :=
  [w % 256, (w >>> 8) % 256, (w >>> 16) % 256, (w >>> 24) % 256]

/-- The 16 MD5 digest bytes of a byte-list message. -/
def md5Digest (msg : List Nat) : List Nat :=
  let padded := md5Pad msg
  let st := (chunksOfF padded.length 64 padded).foldl md5Block md5Init
  wordBytes st.a ++ wordBytes st.b ++ wordBytes st.c ++ wordBytes st.d

/-- The lowercase hexadecimal character for a nibble value. -/
def hexChar (n : Nat) : Char :=
  "0123456789abcdef".data.getD n 'f'

/-- Render a byte list as a lowercase hexadecimal string, two characters per
byte, most significant nibble first. -/
def bytesToHex (bs : List Nat) : String :=
  String.mk (bs.foldr (fun b acc => hexChar (b / 16 % 16) :: hexChar (b % 16) :: acc) [])

/-- `hexdigest` of the modelled `hashlib.md5` accumulator: the accumulated
byte sequence's MD5 digest as a lowercase hexadecimal string. -/
def hexdigest (msg : List Nat) : String := bytesToHex (md5Digest msg)

/-! ## The repository's `md5` function (chunked streaming hash)

Source (`pyutools/io/fileutils.py`, `md5`): a `hashlib.md5()` accumulator is
created, the file is read in chunks of `chunk_size = 10 * 1024 * 1024`
bytes; the loop ends when a read returns no data; each chunk is fed to the
accumulator via `update`; the result is `hasher.hexdigest()`.

The accumulator state is the byte sequence fed so far (`update` appends:
the documented `hashlib` contract), and the loop is embedded with explicit
fuel; `content.length + 1` units of fuel always suffice for a positive
chunk size. -/

/-- The accumulator's `update`: feed a chunk into the streaming hash. -/
def md5_update (hasher chunk : List Nat) : List Nat := hasher ++ chunk

/-- The read loop of `md5`: `remaining` is the unread suffix of the file,
`hasher` the accumulator state.  If the next read returns no data the loop
stops; otherwise the chunk is fed to the accumulator and the loop
continues.  `fuel` bounds the recursion (the Python loop is `while True`,
terminating because reads make progress). -/
def md5_loopF (fuel cs : Nat) (hasher remaining : List Nat) : List Nat :=
  match fuel with
  | 0 => hasher
  | fuel + 1 =>
    let chunk := remaining.take cs
    if chunk.isEmpty then hasher
    else md5_loopF fuel cs (md5_update hasher chunk) (remaining.drop cs)

/-- The chunk size constant of `md5`: `10 * 1024 * 1024` (10 MiB). -/
def chunk_size : Nat := 10 * 1024 * 1024

/-- `md5` with an explicit chunk size: run the read loop on the whole file
content and render the accumulator's final digest. -/
def md5With (cs : Nat) (content : List Nat) : String :=
  hexdigest (md5_loopF (content.length + 1) cs [] content)

/-- `md5(f_path)` from `fileutils.py`, as a function of the file's byte
content: chunked streaming MD5 with the default 10 MiB chunk size. -/
def md5 (content : List Nat) : String := md5With chunk_size content

/-! ## Effectful model of `md5`: handle lifecycle and mid-stream failure

`md5` opens the file, then runs the read loop inside `try ... finally
f_in.close()`.  To settle the resource-safety claims the loop is re-run in
a model where the n-th `read` call may raise, and where the returned pair
records whether every opened handle was closed. -/

/-- Environment for one effectful run of `md5`: the file's byte content,
whether `open` succeeds, and an optional index of the read call (0-based)
that raises mid-stream. -/
structure HashEnv where
  content : List Nat
  openOk : Bool
  failAtRead : Option Nat
deriving Repr, DecidableEq

/-- The read loop under failure injection: `readIdx` counts issued reads;
when `env.failAtRead = some readIdx` that read raises and the exception
leaves the loop.  Otherwise behaves like `md5_loopF`. -/
def md5RunLoop (env : HashEnv) : Nat → Nat → Nat → Nat → List Nat → Except String (List Nat)
  | 0, _, _, _, hasher => Except.ok hasher
  | fuel + 1, cs, pos, readIdx, hasher =>
    if env.failAtRead = some readIdx then Except.error "IOError"
    else
      let chunk := ((env.content.drop pos).take cs)
      if chunk.isEmpty then Except.ok hasher
      else md5RunLoop env fuel cs (pos + cs) (readIdx + 1) (md5_update hasher chunk)

/-- One effectful run of `md5`: the first component is the outcome (digest,
or the escaping exception), the second is `true` iff no file handle is left
open when the call ends.  `open` precedes the `try`, so an `open` failure
propagates with no handle created; the `finally` closes the handle both
when the loop completes and when a read raises. -/
def md5Run (env : HashEnv) (cs : Nat) : Except String String × Bool :=
  if env.openOk = false then (Except.error "IOError", true)
  else
    match md5RunLoop env (env.content.length + 1) cs 0 0 [] with
    | Except.ok acc => (Except.ok (hexdigest acc), true)
    | Except.error e => (Except.error e, true)

/-! ## `is_same_file`

Source: asserts both paths are regular files, maps `os.stat` over the two
paths, returns `False` when the `st_size` fields differ, and otherwise
returns `md5(f1) == md5(f2)`.  A file is modelled by its byte content plus
a readability flag (content reads on an unreadable file raise; the
`os.stat` size query needs no read access). -/

/-- A regular file: its byte content and whether its content is readable. -/
structure MFile where
  content : List Nat
  readable : Bool
deriving Repr, DecidableEq

/-- `os.stat(...).st_size`: a metadata query, available without read
access. -/
def st_size (f : MFile) : Nat := f.content.length

/-- `md5` applied to a file on disk: reading an unreadable file's content
raises. -/
def md5_file (f : MFile) : Except String String :=
  if f.readable then Except.ok (md5 f.content) else Except.error "IOError"

/-- `is_same_file(f1, f2)` from `fileutils.py`.  `md5(f1)` is evaluated
first, so its exception propagates before `f2` is touched. -/
def is_same_file (f1 f2 : MFile) : Except String Bool :=
  if st_size f1 ≠ st_size f2 then Except.ok false
  else
    match md5_file f1, md5_file f2 with
    | Except.error e, _ => Except.error e
    | _, Except.error e => Except.error e
    | Except.ok d1, Except.ok d2 => Except.ok (d1 == d2)

/-! ## `can_read_file`

Source: opens the path for binary reading inside a `try` whose handler
returns `False`; then, inside `try ... finally f_in.close()`, attempts
`f_in.read(1)` and returns `True`, with an inner handler turning any read
exception into `False`.  The environment records the outcome of the open
and of the one-byte read. -/

/-- Environment for one call of `can_read_file`: the outcome of `open`
(`error` means the open raised) and of the subsequent `read(1)` (`ok bs`
is the returned byte list, possibly empty at end of file; `error` means
the read raised). -/
structure ProbeEnv where
  openResult : Except String Unit
  readResult : Except String (List Nat)
deriving Repr

/-- Build a `ProbeEnv` from a file's content: when `openOk` the open
succeeds, and when `readOk` the one-byte read returns `content.take 1`
(the empty list at end of file) without raising. -/
def probeEnvOf (content : List Nat) (openOk readOk : Bool) : ProbeEnv :=
  { openResult := if openOk then Except.ok () else Except.error "IOError",
    readResult := if readOk then Except.ok (content.take 1) else Except.error "IOError" }

/-- `can_read_file(path)` from `fileutils.py`: the first component is the
outcome (an `Except.error` would be an escaping exception — the function
never produces one), the second is `true` iff no handle is left open. -/
def can_read_file (env : ProbeEnv) : Except String Bool × Bool :=
  match env.openResult with
  | Except.error _ => (Except.ok false, true)
  | Except.ok _ =>
    match env.readResult with
    | Except.ok _ => (Except.ok true, true)
    | Except.error _ => (Except.ok false, true)

/-! ## Filesystem model and `copy_link`

Source: raises `OSError('Not a symbolic link: ...')` unless
`os.path.islink(src)`; raises `OSError('Destination already exists: ...')`
when `os.path.exists(dst)`; otherwise calls
`os.symlink(os.readlink(src), dst)`.

The filesystem is a finite association list from paths to entries.  A
symbolic link stores a literal target string, itself used as a path key on
resolution.  `os.path.exists` follows symbolic links (returning `False`
for a broken or cyclic link); the kernel bounds the chain at 40 links, and
`os.symlink` raises `EEXIST` when any entry — a broken link included —
occupies the destination path. -/

/-- A filesystem entry: regular file (with content), directory, or
symbolic link (storing a literal target string). -/
inductive Entry
  | file (content : List Nat)
  | dir
  | symlink (target : String)
deriving Repr, DecidableEq

/-- A filesystem: a finite map from paths to entries. -/
abbrev FS : Type := List (String × Entry)

/-- Look up the entry at a path. -/
def lookupFS (fs : FS) (p : String) : Option Entry :=
  match fs with
  | [] => none
  | (q, e) :: rest => if q = p then some e else lookupFS rest p

/-- `os.path.islink(p)`: the entry at `p` is a symbolic link. -/
def islink (fs : FS) (p : String) : Bool :=
  match lookupFS fs p with
  | some (Entry.symlink _) => true
  | _ => false

/-- `os.path.lexists(p)`: some entry, of any kind, occupies `p`. -/
def lexistsFS (fs : FS) (p : String) : Bool := (lookupFS fs p).isSome

/-- Symbolic-link resolution with fuel: does `p` resolve to an existing
non-link entry within `fuel` link hops? -/
def resolvesFS (fs : FS) : Nat → String → Bool
  | 0, _ => false
  | fuel + 1, p =>
    match lookupFS fs p with
    | none => false
    | some (Entry.symlink t) => resolvesFS fs fuel t
    | some _ => true

/-- `os.path.exists(p)`: follows symbolic links (at most 40 hops, the
kernel's limit); a broken or cyclic link does not exist. -/
def path_exists (fs : FS) (p : String) : Bool := resolvesFS fs 40 p

/-- `os.readlink(p)`: the literal target string stored in the link at `p`. -/
def readlinkFS (fs : FS) (p : String) : Option String :=
  match lookupFS fs p with
  | some (Entry.symlink t) => some t
  | _ => none

/-- The `OSError` conditions `copy_link` can produce: its two explicit
raises, and the `EEXIST` (file-exists) error raised by the `os.symlink`
system call itself. -/
inductive OSErrorKind
  | notASymlink (path : String)
  | destinationExists (path : String)
  | fileExists (path : String)
deriving Repr, DecidableEq

/-- An `OSErrorKind` reporting that the destination already exists: either
the destination-already-exists raise of `copy_link` itself or the
`EEXIST` (file-exists) error of the `os.symlink` call. -/
def isDestExistsErr : OSErrorKind → Bool
  | OSErrorKind.destinationExists _ => true
  | OSErrorKind.fileExists _ => true
  | _ => false

/-- `os.symlink(target, dst)`: creates a symbolic link entry at `dst`
storing the literal string `target`; raises `EEXIST` when any entry
occupies `dst`. -/
def os_symlink (fs : FS) (target dst : String) : Except OSErrorKind FS :=
  if lexistsFS fs dst then Except.error (OSErrorKind.fileExists dst)
  else Except.ok ((dst, Entry.symlink target) :: fs)

/-- `copy_link(src, dst)` from `fileutils.py`: the first component is the
raised error, if any; the second is the resulting filesystem (unchanged on
every failure path). -/
def copy_link (fs : FS) (src dst : String) : Option OSErrorKind × FS :=
  if islink fs src = false then (some (OSErrorKind.notASymlink src), fs)
  else if path_exists fs dst then (some (OSErrorKind.destinationExists dst), fs)
  else
    match readlinkFS fs src with
    | none => (some (OSErrorKind.notASymlink src), fs)
    | some t =>
      match os_symlink fs t dst with
      | Except.error e => (some e, fs)
      | Except.ok fs2 => (none, fs2)

/-! ## `verbosity_to_log_level`

Source (`pyutools/misc/util.py`): maps verbosity 0, 1, 2 to
`logging.ERROR`, `logging.INFO`, `logging.DEBUG` and raises `ValueError`
on anything else.  The `logging` module's numeric level constants are 40,
20 and 10. -/

/-- `logging.ERROR`. -/
def logging_ERROR : Nat := 40

/-- `logging.INFO`. -/
def logging_INFO : Nat := 20

/-- `logging.DEBUG`. -/
def logging_DEBUG : Nat := 10

/-- `verbosity_to_log_level(verbosity)` from `util.py`; `Except.error`
models the raised `ValueError`. -/
def verbosity_to_log_level (verbosity : Int) : Except String Nat :=
  if verbosity = 0 then Except.ok logging_ERROR
  else if verbosity = 1 then Except.ok logging_INFO
  else if verbosity = 2 then Except.ok logging_DEBUG
  else Except.error ("Invalid value for verbosity: " ++ toString verbosity)

/-! ## Helper lemmas -/

/-- With a positive chunk size and enough fuel, the read loop feeds exactly
the whole remaining content into the accumulator. -/
theorem md5_loopF_eq_append (cs : Nat) (hcs : 0 < cs) :
    ∀ (fuel : Nat) (hasher remaining : List Nat), remaining.length ≤ fuel →
      md5_loopF fuel cs hasher remaining = hasher ++ remaining := by
  intro fuel
  induction fuel with
  | zero =>
    intro hasher remaining h
    have hr : remaining = [] := by
      cases remaining with
      | nil => rfl
      | cons a l => simp at h
    subst hr
    simp [md5_loopF]
  | succ n ih =>
    intro hasher remaining h
    cases remaining with
    | nil => simp [md5_loopF]
    | cons x xs =>
      have hne : (((x :: xs).take cs).isEmpty) = false := by
        cases cs with
        | zero => exact absurd hcs (by simp)
        | succ k => simp [List.take]
      have hlen : (((x :: xs).drop cs).length) ≤ n := by
        simp only [List.length_drop, List.length_cons]
        simp only [List.length_cons] at h
        omega
      simp only [md5_loopF, md5_update, hne, Bool.false_eq_true, if_false]
      rw [ih (hasher ++ (x :: xs).take cs) ((x :: xs).drop cs) hlen]
      rw [List.append_assoc, List.take_append_drop]

/-- With a positive chunk size, the chunked hash is the digest of the whole
content. -/
theorem md5With_pos (cs : Nat) (hcs : 0 < cs) (content : List Nat) :
    md5With cs content = hexdigest content := by
  unfold md5With
  rw [md5_loopF_eq_append cs hcs (content.length + 1) [] content (Nat.le_succ _)]
  rfl

/-- With chunk size zero, the chunk list is a run of empty chunks, which
feed nothing into the accumulator. -/
theorem chunksOfF_zero_foldl :
    ∀ (fuel : Nat) (r hasher : List Nat),
      (chunksOfF fuel 0 r).foldl md5_update hasher = hasher := by
  intro fuel
  induction fuel with
  | zero => intro r hasher; simp [chunksOfF]
  | succ n ih =>
    intro r hasher
    cases r with
    | nil => simp [chunksOfF]
    | cons x xs =>
      simp only [chunksOfF, List.take, List.drop, List.foldl]
      rw [show md5_update hasher [] = hasher from by simp [md5_update]]
      exact ih (x :: xs) hasher

/-- The read loop of `md5` is the left fold of the accumulator's `update`
over the file's consecutive chunks, in the order read. -/
theorem md5_loopF_eq_foldl_chunks :
    ∀ (fuel cs : Nat) (hasher remaining : List Nat),
      md5_loopF fuel cs hasher remaining
        = (chunksOfF fuel cs remaining).foldl md5_update hasher := by
  intro fuel
  induction fuel with
  | zero => intro cs hasher remaining; simp [md5_loopF, chunksOfF]
  | succ n ih =>
    intro cs hasher remaining
    cases remaining with
    | nil => simp [md5_loopF, chunksOfF]
    | cons x xs =>
      cases cs with
      | zero =>
        simp only [md5_loopF, List.take, List.isEmpty, if_true]
        rw [chunksOfF_zero_foldl]
      | succ k =>
        have hne : (((x :: xs).take (k + 1)).isEmpty) = false := by
          simp [List.take]
        simp only [md5_loopF, chunksOfF, hne, Bool.false_eq_true, if_false, List.foldl]
        exact ih (k + 1) (md5_update hasher ((x :: xs).take (k + 1))) ((x :: xs).drop (k + 1))

/-- Every character `hexChar` can produce is a lowercase hexadecimal
digit. -/
theorem hexChar_mem (n : Nat) : hexChar n ∈ "0123456789abcdef".data := by
  unfold hexChar
  rcases Nat.lt_or_ge n ("0123456789abcdef".data.length) with h | h
  · rw [List.getD_eq_getElem _ _ h]
    exact List.getElem_mem h
  · rw [List.getD_eq_default _ _ h]
    decide

/-- Every character of the character list underlying `bytesToHex` is a
lowercase hexadecimal digit. -/
theorem hexFold_mem (bs : List Nat) :
    ∀ c ∈ bs.foldr (fun b acc => hexChar (b / 16 % 16) :: hexChar (b % 16) :: acc) [],
      c ∈ "0123456789abcdef".data := by
  induction bs with
  | nil => intro c hc; simp at hc
  | cons b rest ih =>
    intro c hc
    simp only [List.foldr, List.mem_cons] at hc
    rcases hc with h | h | h
    · exact h ▸ hexChar_mem _
    · exact h ▸ hexChar_mem _
    · exact ih c h

/-- Every character of `bytesToHex` is a lowercase hexadecimal digit. -/
theorem bytesToHex_mem (bs : List Nat) :
    ∀ c ∈ (bytesToHex bs).data, c ∈ "0123456789abcdef".data := by
  intro c hc
  exact hexFold_mem bs c hc

/-- A path that `os.path.islink` accepts has a readable link target. -/
theorem islink_readlink (fs : FS) (p : String) (h : islink fs p = true) :
    ∃ t, readlinkFS fs p = some t := by
  unfold islink at h
  unfold readlinkFS
  rcases hl : lookupFS fs p with _ | e
  · rw [hl] at h; simp at h
  · rcases e with c | _ | t
    · rw [hl] at h; simp at h
    · rw [hl] at h; simp at h
    · exact ⟨t, rfl⟩

/-- `os.readlink` succeeding means the entry is a symbolic link storing
that target. -/
theorem readlink_lookup (fs : FS) (p t : String) (h : readlinkFS fs p = some t) :
    lookupFS fs p = some (Entry.symlink t) := by
  unfold readlinkFS at h
  rcases hl : lookupFS fs p with _ | e
  · rw [hl] at h; simp at h
  · rcases e with c | _ | u
    · rw [hl] at h; simp at h
    · rw [hl] at h; simp at h
    · rw [hl] at h
      simp at h
      rw [h]

/-- A path with no entry does not exist for `os.path.exists`. -/
theorem path_exists_of_lookup_none (fs : FS) (p : String) (h : lookupFS fs p = none) :
    path_exists fs p = false := by
  unfold path_exists
  rw [show (40 : Nat) = 39 + 1 from rfl]
  unfold resolvesFS
  rw [h]

set_option maxRecDepth 100000 in
/-- MD5 test vector: the digest of the empty message (fidelity check of the
MD5 implementation against RFC 1321 / `hashlib`). -/
theorem md5_test_vector_empty : md5 [] = "d41d8cd98f00b204e9800998ecf8427e" := by rfl

set_option maxRecDepth 100000 in
/-- MD5 test vector: the digest of `"abc"` (fidelity check of the MD5
implementation against RFC 1321 / `hashlib`). -/
theorem md5_test_vector_abc : md5 [97, 98, 99] = "900150983cd24fb0d6963f7d28e17f72" := by rfl

/-! ## Claim theorems -/

/-- C1: for any two regular files, `is_same_file` first compares the sizes
obtained from the `os.stat` metadata query; when they differ it returns
`false` without requiring read access to either file's content (both files
may be unreadable); when they agree it returns `true` if and only if the
two `md5` digests are equal. -/
theorem C1_is_same_file_size_fast_reject (f1 f2 : MFile) :
    (st_size f1 ≠ st_size f2 → is_same_file f1 f2 = Except.ok false) ∧
    (st_size f1 = st_size f2 → f1.readable = true → f2.readable = true →
      is_same_file f1 f2 = Except.ok (md5 f1.content == md5 f2.content) ∧
      (is_same_file f1 f2 = Except.ok true ↔ md5 f1.content = md5 f2.content)) := by
  constructor
  · intro h
    simp [is_same_file, h]
  · intro hsz h1 h2
    have hv : is_same_file f1 f2 = Except.ok (md5 f1.content == md5 f2.content) := by
      simp [is_same_file, hsz, md5_file, h1, h2]
    refine ⟨hv, ?_⟩
    rw [hv]
    constructor
    · intro h
      have hb : (md5 f1.content == md5 f2.content) = true := by
        exact Except.ok.inj h
      exact eq_of_beq hb
    · intro h
      rw [h]
      simp

/-- Witness for C1: files of sizes 1 and 0 (the first unreadable) are
rejected as `false` by the size check alone; equal-sized readable files
are compared through their digests. -/
theorem C1_witness :
    st_size ⟨[0], false⟩ ≠ st_size ⟨[], true⟩ ∧
    is_same_file ⟨[0], false⟩ ⟨[], true⟩ = Except.ok false ∧
    st_size ⟨[1, 2], true⟩ = st_size ⟨[3, 4], true⟩ ∧
    (is_same_file ⟨[1, 2], true⟩ ⟨[3, 4], true⟩ = Except.ok true ↔ md5 [1, 2] = md5 [3, 4]) :=
  ⟨by decide,
   (C1_is_same_file_size_fast_reject ⟨[0], false⟩ ⟨[], true⟩).1 (by decide),
   by decide,
   ((C1_is_same_file_size_fast_reject ⟨[1, 2], true⟩ ⟨[3, 4], true⟩).2 (by decide) rfl rfl).2⟩

/-- C2: the digest `md5` computes is deterministic (it is a function of the
byte content alone) and invariant to the chunk size of the read loop: any
two positive chunk sizes give the same digest, namely the digest of the
content hashed in one piece. -/
theorem C2_md5_chunk_invariant (content : List Nat) (c1 c2 : Nat)
    (h1 : 0 < c1) (h2 : 0 < c2) :
    md5With c1 content = md5With c2 content ∧ md5With c1 content = hexdigest content := by
  have e1 := md5With_pos c1 h1 content
  have e2 := md5With_pos c2 h2 content
  exact ⟨e1.trans e2.symm, e1⟩

/-- Witness for C2: a 1-byte chunk size and the 10 MiB default give the
same digest on the content `[97, 98, 99]`. -/
theorem C2_witness :
    0 < 1 ∧ 0 < 10485760 ∧
    (md5With 1 [97, 98, 99] = md5With 10485760 [97, 98, 99] ∧
     md5With 1 [97, 98, 99] = hexdigest [97, 98, 99]) :=
  ⟨by decide, by decide,
   C2_md5_chunk_invariant [97, 98, 99] 1 10485760 (by decide) (by decide)⟩

/-- C5: `can_read_file` never lets an exception escape: its outcome is
always an ordinary boolean, it is `true` exactly when both the open and
the one-byte read succeed, and any failure of either step becomes the
return value `false`. -/
theorem C5_can_read_file_total (env : ProbeEnv) :
    (∃ b, (can_read_file env).1 = Except.ok b) ∧
    ((can_read_file env).1 = Except.ok true ↔
      (∃ u, env.openResult = Except.ok u) ∧ (∃ bs, env.readResult = Except.ok bs)) ∧
    (∀ e, env.openResult = Except.error e → (can_read_file env).1 = Except.ok false) ∧
    (∀ u e, env.openResult = Except.ok u → env.readResult = Except.error e →
      (can_read_file env).1 = Except.ok false) := by
  rcases ho : env.openResult with eo | u
  · refine ⟨⟨false, by simp [can_read_file, ho]⟩, ?_, ?_, ?_⟩
    · simp [can_read_file, ho]
    · intro e he
      simp [can_read_file, ho]
    · intro u e hu he
      exact absurd hu (by simp)
  · rcases hr : env.readResult with er | bs
    · refine ⟨⟨false, by simp [can_read_file, ho, hr]⟩, ?_, ?_, ?_⟩
      · simp [can_read_file, ho, hr]
      · intro e he
        exact absurd he (by simp)
      · intro u e hu he
        simp [can_read_file, ho, hr]
    · refine ⟨⟨true, by simp [can_read_file, ho, hr]⟩, ?_, ?_, ?_⟩
      · simp [can_read_file, ho, hr]
      · intro e he
        exact absurd he (by simp)
      · intro u e hu he
        exact absurd he (by simp)

/-- Witness for C5: a failing one-byte read yields `false` (not an
exception), and a successful open plus read yields `true`. -/
theorem C5_witness :
    (probeEnvOf [5] true false).openResult = Except.ok () ∧
    (probeEnvOf [5] true false).readResult = Except.error "IOError" ∧
    (can_read_file (probeEnvOf [5] true false)).1 = Except.ok false ∧
    (can_read_file (probeEnvOf [] true true)).1 = Except.ok true :=
  ⟨rfl, rfl,
   (C5_can_read_file_total (probeEnvOf [5] true false)).2.2.2 () "IOError" rfl rfl,
   (C5_can_read_file_total (probeEnvOf [] true true)).2.1.mpr ⟨⟨(), rfl⟩, ⟨[], rfl⟩⟩⟩

/-- C6: `md5` releases its file handle on every exit path — the second
component of `md5Run` is `true` for every environment and chunk size — and
a read failure raised mid-stream leaves the loop and escapes from `md5`
unmodified, while normal completion returns the accumulator's digest. -/
theorem C6_md5_handle_release (env : HashEnv) (cs : Nat) :
    (md5Run env cs).2 = true ∧
    (∀ e, md5RunLoop env (env.content.length + 1) cs 0 0 [] = Except.error e →
      env.openOk = true → (md5Run env cs).1 = Except.error e) ∧
    (∀ acc, md5RunLoop env (env.content.length + 1) cs 0 0 [] = Except.ok acc →
      env.openOk = true → (md5Run env cs).1 = Except.ok (hexdigest acc)) := by
  refine ⟨?_, ?_, ?_⟩
  · cases ho : env.openOk with
    | false => simp [md5Run, ho]
    | true =>
      rcases hl : md5RunLoop env (env.content.length + 1) cs 0 0 [] with e | acc
      · simp [md5Run, ho, hl]
      · simp [md5Run, ho, hl]
  · intro e hl ho
    simp [md5Run, ho, hl]
  · intro acc hl ho
    simp [md5Run, ho, hl]

/-- Witness for C6: with the first read raising, the exception escapes
unmodified and the handle is still closed. -/
theorem C6_witness :
    md5RunLoop ⟨[1, 2, 3], true, some 0⟩ 4 1 0 0 [] = Except.error "IOError" ∧
    (md5Run ⟨[1, 2, 3], true, some 0⟩ 1).1 = Except.error "IOError" ∧
    (md5Run ⟨[1, 2, 3], true, some 0⟩ 1).2 = true :=
  ⟨rfl,
   (C6_md5_handle_release ⟨[1, 2, 3], true, some 0⟩ 1).2.1 "IOError" rfl rfl,
   (C6_md5_handle_release ⟨[1, 2, 3], true, some 0⟩ 1).1⟩

/-- C7: `md5` reads the file in fixed chunks of the default size
`10 * 1024 * 1024` until a read returns no data, feeds the chunks into the
accumulator in the order read (the loop is the left fold of `update` over
the file's consecutive chunks), and returns the accumulator's digest of
the entire content, rendered with lowercase hexadecimal characters. -/
theorem C7_md5_chunked_digest (content : List Nat) :
    chunk_size = 10 * 1024 * 1024 ∧
    md5 content = md5With chunk_size content ∧
    md5_loopF (content.length + 1) chunk_size [] content
      = (chunksOfF (content.length + 1) chunk_size content).foldl md5_update [] ∧
    md5 content = hexdigest content ∧
    ∀ c ∈ (md5 content).data, c ∈ "0123456789abcdef".data := by
  have hm : md5 content = hexdigest content :=
    md5With_pos chunk_size (by decide) content
  refine ⟨rfl, rfl, md5_loopF_eq_foldl_chunks _ _ _ _, hm, ?_⟩
  intro c hc
  rw [hm] at hc
  exact bytesToHex_mem _ c hc

set_option maxRecDepth 100000 in
/-- Witness for C7: evaluated on the content `[97, 98, 99]`, whose digest
contains the character `9`. -/
theorem C7_witness :
    chunk_size = 10 * 1024 * 1024 ∧
    md5 [97, 98, 99] = hexdigest [97, 98, 99] ∧
    '9' ∈ (md5 [97, 98, 99]).data ∧
    '9' ∈ "0123456789abcdef".data :=
  ⟨(C7_md5_chunked_digest [97, 98, 99]).1,
   (C7_md5_chunked_digest [97, 98, 99]).2.2.2.1,
   by decide,
   (C7_md5_chunked_digest [97, 98, 99]).2.2.2.2 '9' (by decide)⟩

/-- C9: `verbosity_to_log_level` maps 0 to `logging.ERROR`, 1 to
`logging.INFO`, 2 to `logging.DEBUG`, and raises `ValueError` exactly on
every other integer. -/
theorem C9_verbosity_to_log_level_spec (v : Int) :
    (v = 0 → verbosity_to_log_level v = Except.ok logging_ERROR) ∧
    (v = 1 → verbosity_to_log_level v = Except.ok logging_INFO) ∧
    (v = 2 → verbosity_to_log_level v = Except.ok logging_DEBUG) ∧
    ((∃ e, verbosity_to_log_level v = Except.error e) ↔ v ≠ 0 ∧ v ≠ 1 ∧ v ≠ 2) := by
  refine ⟨?_, ?_, ?_, ?_⟩
  · intro h; simp [verbosity_to_log_level, h]
  · intro h; simp [verbosity_to_log_level, h]
  · intro h; simp [verbosity_to_log_level, h]
  · by_cases h0 : v = 0
    · simp [verbosity_to_log_level, h0]
    · by_cases h1 : v = 1
      · simp [verbosity_to_log_level, h1]
      · by_cases h2 : v = 2
        · simp [verbosity_to_log_level, h2]
        · simp [verbosity_to_log_level, h0, h1, h2]

/-- Witness for C9: the three mapped verbosities and the rejected value 5. -/
theorem C9_witness :
    verbosity_to_log_level 0 = Except.ok logging_ERROR ∧
    verbosity_to_log_level 1 = Except.ok logging_INFO ∧
    verbosity_to_log_level 2 = Except.ok logging_DEBUG ∧
    (∃ e, verbosity_to_log_level 5 = Except.error e) :=
  ⟨(C9_verbosity_to_log_level_spec 0).1 rfl,
   (C9_verbosity_to_log_level_spec 1).2.1 rfl,
   (C9_verbosity_to_log_level_spec 2).2.2.1 rfl,
   (C9_verbosity_to_log_level_spec 5).2.2.2.mpr ⟨by decide, by decide, by decide⟩⟩

/-- C10: on an openable empty regular file, the one-byte read returns no
data without raising, and `can_read_file` counts this as success and
returns `true` (with the handle closed). -/
theorem C10_can_read_file_empty :
    (probeEnvOf [] true true).readResult = Except.ok ([] : List Nat) ∧
    can_read_file (probeEnvOf [] true true) = (Except.ok true, true) :=
  ⟨rfl, rfl⟩

/-- C3: `copy_link` fails with the not-a-symbolic-link error when `src` is
not a symbolic link; when `src` is a link and any entry — regular file,
directory, symbolic link, a broken one included — occupies `dst`, it fails
with an error reporting that the destination exists (its own
destination-already-exists raise, or the `EEXIST` error of the
`os.symlink` call when `os.path.exists` missed a broken link); and on
every failure path the filesystem is unchanged. -/
theorem C3_copy_link_failure (fs : FS) (src dst : String) :
    (islink fs src = false → copy_link fs src dst = (some (OSErrorKind.notASymlink src), fs)) ∧
    (islink fs src = true → lexistsFS fs dst = true →
      ∃ e, isDestExistsErr e = true ∧ copy_link fs src dst = (some e, fs)) ∧
    (∀ e, (copy_link fs src dst).1 = some e → (copy_link fs src dst).2 = fs) := by
  refine ⟨?_, ?_, ?_⟩
  · intro h
    simp [copy_link, h]
  · intro hl hex
    by_cases hpe : path_exists fs dst = true
    · exact ⟨OSErrorKind.destinationExists dst, rfl, by simp [copy_link, hl, hpe]⟩
    · obtain ⟨t, ht⟩ := islink_readlink fs src hl
      refine ⟨OSErrorKind.fileExists dst, rfl, ?_⟩
      simp [copy_link, hl, hpe, ht, os_symlink, hex]
  · intro e he
    by_cases h1 : islink fs src = false
    · simp [copy_link, h1]
    · have h1t : islink fs src = true := by
        rcases Bool.eq_false_or_eq_true (islink fs src) with h | h
        · exact h
        · exact absurd h h1
      by_cases h2 : path_exists fs dst = true
      · simp [copy_link, h1t, h2]
      · obtain ⟨t, ht⟩ := islink_readlink fs src h1t
        by_cases h3 : lexistsFS fs dst = true
        · simp [copy_link, h1t, h2, ht, os_symlink, h3]
        · exfalso
          simp [copy_link, h1t, h2, ht, os_symlink, h3] at he

/-- Witness for C3: in a filesystem with regular file `a`, link `l` to
`a`, and broken link `b` to a missing path, copying from the non-link `a`
fails with the not-a-symbolic-link error, and copying `l` over the
occupied `b` fails with a destination-exists error; the filesystem is
unchanged both times. -/
theorem C3_witness :
    islink [("a", Entry.file [1]), ("l", Entry.symlink "a"), ("b", Entry.symlink "missing")] "a"
      = false ∧
    copy_link [("a", Entry.file [1]), ("l", Entry.symlink "a"), ("b", Entry.symlink "missing")]
      "a" "x"
      = (some (OSErrorKind.notASymlink "a"),
         [("a", Entry.file [1]), ("l", Entry.symlink "a"), ("b", Entry.symlink "missing")]) ∧
    islink [("a", Entry.file [1]), ("l", Entry.symlink "a"), ("b", Entry.symlink "missing")] "l"
      = true ∧
    lexistsFS [("a", Entry.file [1]), ("l", Entry.symlink "a"), ("b", Entry.symlink "missing")] "b"
      = true ∧
    (∃ e, isDestExistsErr e = true ∧
      copy_link [("a", Entry.file [1]), ("l", Entry.symlink "a"), ("b", Entry.symlink "missing")]
        "l" "b"
        = (some e,
           [("a", Entry.file [1]), ("l", Entry.symlink "a"), ("b", Entry.symlink "missing")])) :=
  ⟨rfl,
   (C3_copy_link_failure
     [("a", Entry.file [1]), ("l", Entry.symlink "a"), ("b", Entry.symlink "missing")]
     "a" "x").1 rfl,
   rfl,
   rfl,
   (C3_copy_link_failure
     [("a", Entry.file [1]), ("l", Entry.symlink "a"), ("b", Entry.symlink "missing")]
     "l" "b").2.1 rfl rfl⟩

/-- C4: when `src` is a symbolic link storing the literal target `t` and
no entry occupies `dst`, `copy_link` succeeds, `dst` becomes a symbolic
link whose stored target string is exactly `t` (not resolved), exactly one
entry is added, and every other path — `src` included — is unchanged. -/
theorem C4_copy_link_success (fs : FS) (src dst t : String)
    (hsrc : readlinkFS fs src = some t) (hdst : lookupFS fs dst = none) :
    (copy_link fs src dst).1 = none ∧
    readlinkFS (copy_link fs src dst).2 dst = some t ∧
    islink (copy_link fs src dst).2 dst = true ∧
    lookupFS (copy_link fs src dst).2 src = lookupFS fs src ∧
    (∀ p, p ≠ dst → lookupFS (copy_link fs src dst).2 p = lookupFS fs p) ∧
    (copy_link fs src dst).2.length = fs.length + 1 := by
  have hlk := readlink_lookup fs src t hsrc
  have hil : islink fs src = true := by simp [islink, hlk]
  have hpe : path_exists fs dst = false := path_exists_of_lookup_none fs dst hdst
  have hlex : lexistsFS fs dst = false := by simp [lexistsFS, hdst]
  have hne : src ≠ dst := by
    intro h
    rw [h, hdst] at hlk
    exact Option.noConfusion hlk
  have hcl : copy_link fs src dst = (none, (dst, Entry.symlink t) :: fs) := by
    simp [copy_link, hil, hpe, hsrc, os_symlink, hlex]
  rw [hcl]
  refine ⟨rfl, ?_, ?_, ?_, ?_, ?_⟩
  · simp [readlinkFS, lookupFS]
  · simp [islink, lookupFS]
  · simp [lookupFS, Ne.symm hne]
  · intro p hp
    simp [lookupFS, Ne.symm hp]
  · simp

/-- Witness for C4: copying the link `l` (target `/tmp/foo`) to the vacant
path `d` succeeds and the new link's literal target is `/tmp/foo`. -/
theorem C4_witness :
    readlinkFS [("a", Entry.file [1]), ("l", Entry.symlink "/tmp/foo")] "l" = some "/tmp/foo" ∧
    lookupFS [("a", Entry.file [1]), ("l", Entry.symlink "/tmp/foo")] "d" = none ∧
    (copy_link [("a", Entry.file [1]), ("l", Entry.symlink "/tmp/foo")] "l" "d").1 = none ∧
    readlinkFS (copy_link [("a", Entry.file [1]), ("l", Entry.symlink "/tmp/foo")] "l" "d").2 "d"
      = some "/tmp/foo" ∧
    islink (copy_link [("a", Entry.file [1]), ("l", Entry.symlink "/tmp/foo")] "l" "d").2 "d"
      = true ∧
    lookupFS (copy_link [("a", Entry.file [1]), ("l", Entry.symlink "/tmp/foo")] "l" "d").2 "l"
      = lookupFS [("a", Entry.file [1]), ("l", Entry.symlink "/tmp/foo")] "l" ∧
    (copy_link [("a", Entry.file [1]), ("l", Entry.symlink "/tmp/foo")] "l" "d").2.length
      = ([("a", Entry.file [1]), ("l", Entry.symlink "/tmp/foo")] : FS).length + 1 :=
  ⟨rfl, rfl,
   (C4_copy_link_success [("a", Entry.file [1]), ("l", Entry.symlink "/tmp/foo")]
     "l" "d" "/tmp/foo" rfl rfl).1,
   (C4_copy_link_success [("a", Entry.file [1]), ("l", Entry.symlink "/tmp/foo")]
     "l" "d" "/tmp/foo" rfl rfl).2.1,
   (C4_copy_link_success [("a", Entry.file [1]), ("l", Entry.symlink "/tmp/foo")]
     "l" "d" "/tmp/foo" rfl rfl).2.2.1,
   (C4_copy_link_success [("a", Entry.file [1]), ("l", Entry.symlink "/tmp/foo")]
     "l" "d" "/tmp/foo" rfl rfl).2.2.2.1,
   (C4_copy_link_success [("a", Entry.file [1]), ("l", Entry.symlink "/tmp/foo")]
     "l" "d" "/tmp/foo" rfl rfl).2.2.2.2.2⟩

end Pyutools
